import Mathlib

/-!
Verification of the `gyt` progress-tracking tool (`src/gyt/models.py` and
`src/gyt/cli.py`) against its natural-language specification.

The Python code is shallowly embedded: dataclasses become structures, the
on-disk JSON documents become fields of a `Repository` state record, each
Python method becomes a Lean function on that record, and a Python method
that can raise an exception returns an `Option` (with `none` marking the
raised exception).  `datetime` values are embedded as a record of their
calendar fields, and the standard-library pieces the code calls
(`datetime.isoformat`, `datetime.fromisoformat`, `str.encode`,
`hashlib.sha256(...).hexdigest()`) are implemented concretely below.
-/

set_option maxHeartbeats 1000000

/-- Embedding of a naive Python `datetime.datetime` value: the seven calendar
fields Python stores (no timezone is ever attached by this program). -/
structure Datetime where
  year : Nat
  month : Nat
  day : Nat
  hour : Nat
  minute : Nat
  second : Nat
  microsecond : Nat
  deriving DecidableEq

/-- The ranges Python's `datetime` constructor enforces on its fields
(`day ≤ 31` is a superset of the exact per-month bound, which is all the
proofs need). -/
def Datetime.Valid (dt : Datetime) : Prop :=
  1 ≤ dt.year ∧ dt.year ≤ 9999 ∧ 1 ≤ dt.month ∧ dt.month ≤ 12 ∧
  1 ≤ dt.day ∧ dt.day ≤ 31 ∧ dt.hour ≤ 23 ∧ dt.minute ≤ 59 ∧
  dt.second ≤ 59 ∧ dt.microsecond ≤ 999999

instance (dt : Datetime) : Decidable dt.Valid := by
  unfold Datetime.Valid; infer_instance

/-- The character for a single decimal digit (only ever applied to `n < 10`). -/
def digitChar (n : Nat) : Char :=
  match n with
  | 0 => '0' | 1 => '1' | 2 => '2' | 3 => '3' | 4 => '4'
  | 5 => '5' | 6 => '6' | 7 => '7' | 8 => '8' | 9 => '9'
  | _ => '0'

/-- Numeric value of a decimal digit character. -/
def digitVal (c : Char) : Nat := c.toNat - 48

/-- Whether a character is a decimal digit. -/
def isDigitChar (c : Char) : Bool := 48 ≤ c.toNat && c.toNat ≤ 57

/-- Two-digit zero-padded decimal rendering (Python `%02d` for `n ≤ 99`). -/
def pad2 (n : Nat) : List Char := [digitChar (n / 10), digitChar (n % 10)]

/-- Four-digit zero-padded decimal rendering (Python `%04d` for `n ≤ 9999`). -/
def pad4 (n : Nat) : List Char :=
  [digitChar (n / 1000), digitChar (n / 100 % 10), digitChar (n / 10 % 10),
   digitChar (n % 10)]

/-- Six-digit zero-padded decimal rendering (Python `%06d` for `n ≤ 999999`). -/
def pad6 (n : Nat) : List Char :=
  [digitChar (n / 100000), digitChar (n / 10000 % 10), digitChar (n / 1000 % 10),
   digitChar (n / 100 % 10), digitChar (n / 10 % 10), digitChar (n % 10)]

/-- Character sequence produced by Python's `datetime.isoformat()` on a naive
datetime: `YYYY-MM-DDTHH:MM:SS`, extended with `.ffffff` exactly when the
microsecond field is nonzero. -/
def isoChars (dt : Datetime) : List Char :=
  pad4 dt.year ++ '-' :: pad2 dt.month ++ '-' :: pad2 dt.day ++
  'T' :: pad2 dt.hour ++ ':' :: pad2 dt.minute ++ ':' :: pad2 dt.second ++
  (if dt.microsecond = 0 then [] else '.' :: pad6 dt.microsecond)

/-- Embedding of `datetime.isoformat()`. -/
def isoformat (dt : Datetime) : String := String.mk (isoChars dt)

/-- Embedding of `datetime.fromisoformat` on the character level, restricted to
the two shapes `datetime.isoformat()` emits for naive datetimes
(`YYYY-MM-DDTHH:MM:SS` and `YYYY-MM-DDTHH:MM:SS.ffffff`); any other input is
rejected, modelling the `ValueError` Python raises. -/
def parseIso (cs : List Char) : Option Datetime :=
  match cs with
  | [y3, y2, y1, y0, '-', b1, b0, '-', d1, d0, 'T',
     h1, h0, ':', n1, n0, ':', s1, s0] =>
    if isDigitChar y3 && isDigitChar y2 && isDigitChar y1 && isDigitChar y0 &&
       isDigitChar b1 && isDigitChar b0 && isDigitChar d1 && isDigitChar d0 &&
       isDigitChar h1 && isDigitChar h0 && isDigitChar n1 && isDigitChar n0 &&
       isDigitChar s1 && isDigitChar s0 then
      some ⟨digitVal y3 * 1000 + digitVal y2 * 100 + digitVal y1 * 10 + digitVal y0,
            digitVal b1 * 10 + digitVal b0,
            digitVal d1 * 10 + digitVal d0,
            digitVal h1 * 10 + digitVal h0,
            digitVal n1 * 10 + digitVal n0,
            digitVal s1 * 10 + digitVal s0,
            0⟩
    else none
  | [y3, y2, y1, y0, '-', b1, b0, '-', d1, d0, 'T',
     h1, h0, ':', n1, n0, ':', s1, s0, '.', u5, u4, u3, u2, u1, u0] =>
    if isDigitChar y3 && isDigitChar y2 && isDigitChar y1 && isDigitChar y0 &&
       isDigitChar b1 && isDigitChar b0 && isDigitChar d1 && isDigitChar d0 &&
       isDigitChar h1 && isDigitChar h0 && isDigitChar n1 && isDigitChar n0 &&
       isDigitChar s1 && isDigitChar s0 && isDigitChar u5 && isDigitChar u4 &&
       isDigitChar u3 && isDigitChar u2 && isDigitChar u1 && isDigitChar u0 then
      some ⟨digitVal y3 * 1000 + digitVal y2 * 100 + digitVal y1 * 10 + digitVal y0,
            digitVal b1 * 10 + digitVal b0,
            digitVal d1 * 10 + digitVal d0,
            digitVal h1 * 10 + digitVal h0,
            digitVal n1 * 10 + digitVal n0,
            digitVal s1 * 10 + digitVal s0,
            digitVal u5 * 100000 + digitVal u4 * 10000 + digitVal u3 * 1000 +
              digitVal u2 * 100 + digitVal u1 * 10 + digitVal u0⟩
    else none
  | _ => none

/-- Embedding of `datetime.fromisoformat` on strings. -/
def fromisoformat (s : String) : Option Datetime := parseIso s.data

/-- Embedding of the `Milestone` dataclass (`models.py` lines 10-30). -/
structure Milestone where
  message : String
  timestamp : Datetime
  tags : List String
  deriving DecidableEq

/-- The plain record `Milestone.to_dict` produces and `Milestone.from_dict`
consumes: the timestamp is stored as its ISO-8601 text. -/
structure MilestoneDict where
  message : String
  timestamp : String
  tags : List String
  deriving DecidableEq

/-- Embedding of `Milestone.to_dict`. -/
def Milestone.to_dict (m : Milestone) : MilestoneDict :=
  ⟨m.message, isoformat m.timestamp, m.tags⟩

/-- Embedding of `Milestone.from_dict`; `none` models the `ValueError` raised
by `datetime.fromisoformat` on a malformed timestamp. -/
def Milestone.from_dict (d : MilestoneDict) : Option Milestone :=
  match fromisoformat d.timestamp with
  | some ts => some ⟨d.message, ts, d.tags⟩
  | none => none

/-- A milestone is valid when its timestamp is a Python-constructible
datetime. -/
def Milestone.Valid (m : Milestone) : Prop := m.timestamp.Valid

instance (m : Milestone) : Decidable m.Valid := by
  unfold Milestone.Valid; infer_instance

/-- Embedding of the `Commit` dataclass (`models.py` lines 33-56); the
`commit_hash` field is `None` until `add_commit` assigns it. -/
structure Commit where
  message : String
  milestones : List Milestone
  timestamp : Datetime
  commit_hash : Option String
  deriving DecidableEq

/-- The plain record `Commit.to_dict` produces. -/
structure CommitDict where
  message : String
  milestones : List MilestoneDict
  timestamp : String
  commit_hash : Option String
  deriving DecidableEq

/-- Embedding of `Commit.to_dict`. -/
def Commit.to_dict (c : Commit) : CommitDict :=
  ⟨c.message, c.milestones.map Milestone.to_dict, isoformat c.timestamp,
   c.commit_hash⟩

/-- Left-to-right deserialization of a list of milestone records, modelling
the list comprehension `[Milestone.from_dict(m) for m in data]` (the first
failure aborts the whole operation, like a raised exception). -/
def milestonesFromDicts : List MilestoneDict → Option (List Milestone)
  | [] => some []
  | d :: ds =>
    match Milestone.from_dict d with
    | none => none
    | some m =>
      match milestonesFromDicts ds with
      | none => none
      | some ms => some (m :: ms)

/-- Embedding of `Commit.from_dict`. -/
def Commit.from_dict (d : CommitDict) : Option Commit :=
  match fromisoformat d.timestamp with
  | none => none
  | some ts =>
    match milestonesFromDicts d.milestones with
    | none => none
    | some ms => some ⟨d.message, ms, ts, d.commit_hash⟩

/-- Left-to-right deserialization of a list of commit records, modelling
`[Commit.from_dict(c) for c in data]`. -/
def commitsFromDicts : List CommitDict → Option (List Commit)
  | [] => some []
  | d :: ds =>
    match Commit.from_dict d with
    | none => none
    | some c =>
      match commitsFromDicts ds with
      | none => none
      | some cs => some (c :: cs)

/-- A commit is valid when its own timestamp and all of its milestones'
timestamps are Python-constructible datetimes. -/
def Commit.Valid (c : Commit) : Prop :=
  c.timestamp.Valid ∧ ∀ m ∈ c.milestones, m.Valid

instance (c : Commit) : Decidable c.Valid := by
  unfold Commit.Valid; infer_instance

/-! ### SHA-256 (the `hashlib.sha256(...).hexdigest()` call in `add_commit`)

A direct FIPS 180-4 implementation over lists of byte values (`Nat`s below
256), with every 32-bit operation reduced mod `2 ^ 32` explicitly. -/

/-- Modulus for 32-bit words. -/
def M32 : Nat := 4294967296

/-- Right rotation of a 32-bit word. -/
def rotr (n w : Nat) : Nat := ((w >>> n) ||| (w <<< (32 - n))) % M32

/-- The 64 SHA-256 round constants. -/
def shaK : List Nat :=
  [1116352408, 1899447441, 3049323471, 3921009573, 961987163,
   1508970993, 2453635748, 2870763221, 3624381080, 310598401,
   607225278, 1426881987, 1925078388, 2162078206, 2614888103,
   3248222580, 3835390401, 4022224774, 264347078, 604807628,
   770255983, 1249150122, 1555081692, 1996064986, 2554220882,
   2821834349, 2952996808, 3210313671, 3336571891, 3584528711,
   113926993, 338241895, 666307205, 773529912, 1294757372,
   1396182291, 1695183700, 1986661051, 2177026350, 2456956037,
   2730485921, 2820302411, 3259730800, 3345764771, 3516065817,
   3600352804, 4094571909, 275423344, 430227734, 506948616,
   659060556, 883997877, 958139571, 1322822218, 1537002063,
   1747873779, 1955562222, 2024104815, 2227730452, 2361852424,
   2428436474, 2756734187, 3204031479, 3329325298]

/-- The eight 32-bit words of SHA-256 working state. -/
structure Hash8 where
  a : Nat
  b : Nat
  c : Nat
  d : Nat
  e : Nat
  f : Nat
  g : Nat
  h : Nat
  deriving DecidableEq

/-- The SHA-256 initial hash value. -/
def shaInit : Hash8 :=
  ⟨1779033703, 3144134277, 1013904242, 2773480762,
   1359893119, 2600822924, 528734635, 1541459225⟩

/-- SHA-256 message padding: append the `0x80` byte, zeros up to 56 mod 64,
then the bit length as 8 big-endian bytes. -/
def padMsg (msg : List Nat) : List Nat :=
  let len := msg.length
  let lenBits := 8 * len
  msg ++ 0x80 :: List.replicate ((119 - len % 64) % 64) 0 ++
    [(lenBits >>> 56) % 256, (lenBits >>> 48) % 256, (lenBits >>> 40) % 256,
     (lenBits >>> 32) % 256, (lenBits >>> 24) % 256, (lenBits >>> 16) % 256,
     (lenBits >>> 8) % 256, lenBits % 256]

/-- Split a byte list into 64-byte chunks. -/
def toChunks (l : List Nat) : List (List Nat) :=
  if h : l = [] then []
  else l.take 64 :: toChunks (l.drop 64)
termination_by l.length
decreasing_by
  simp only [List.length_drop]
  have hp : 0 < l.length := List.length_pos.mpr h
  omega

/-- The next word of the SHA-256 message schedule, from the words so far. -/
def nextW (ws : List Nat) : Nat :=
  let i := ws.length
  let w15 := ws.getD (i - 15) 0
  let w2 := ws.getD (i - 2) 0
  let s0 := (rotr 7 w15) ^^^ (rotr 18 w15) ^^^ (w15 >>> 3)
  let s1 := (rotr 17 w2) ^^^ (rotr 19 w2) ^^^ (w2 >>> 10)
  (ws.getD (i - 16) 0 + s0 + ws.getD (i - 7) 0 + s1) % M32

/-- Extend the 16-word schedule by the given number of further words. -/
def extendSchedule (ws : List Nat) : Nat → List Nat
  | 0 => ws
  | n + 1 => extendSchedule (ws ++ [nextW ws]) n

/-- One SHA-256 compression round, consuming a (schedule word, constant)
pair. -/
def compressRound (x : Hash8) (wk : Nat × Nat) : Hash8 :=
  let S1 := (rotr 6 x.e) ^^^ (rotr 11 x.e) ^^^ (rotr 25 x.e)
  let ch := (x.e &&& x.f) ^^^ ((4294967295 - x.e % M32) &&& x.g)
  let t1 := (x.h + S1 + ch + wk.2 + wk.1) % M32
  let S0 := (rotr 2 x.a) ^^^ (rotr 13 x.a) ^^^ (rotr 22 x.a)
  let mj := (x.a &&& x.b) ^^^ (x.a &&& x.c) ^^^ (x.b &&& x.c)
  let t2 := (S0 + mj) % M32
  ⟨(t1 + t2) % M32, x.a, x.b, x.c, (x.d + t1) % M32, x.e, x.f, x.g⟩

/-- Process one 64-byte chunk: build the schedule, run 64 rounds, add the
result back into the state. -/
def compress (st : Hash8) (chunk : List Nat) : Hash8 :=
  let ws0 := (List.range 16).map fun i =>
    (chunk.getD (4 * i) 0) * 16777216 + (chunk.getD (4 * i + 1) 0) * 65536 +
    (chunk.getD (4 * i + 2) 0) * 256 + chunk.getD (4 * i + 3) 0
  let ws := extendSchedule ws0 48
  let r := (ws.zip shaK).foldl compressRound st
  ⟨(st.a + r.a) % M32, (st.b + r.b) % M32, (st.c + r.c) % M32,
   (st.d + r.d) % M32, (st.e + r.e) % M32, (st.f + r.f) % M32,
   (st.g + r.g) % M32, (st.h + r.h) % M32⟩

/-- Big-endian bytes of a 32-bit word. -/
def wordBytes (w : Nat) : List Nat :=
  [(w >>> 24) % 256, (w >>> 16) % 256, (w >>> 8) % 256, w % 256]

/-- The 32 digest bytes of a final SHA-256 state. -/
def digestBytes (s : Hash8) : List Nat :=
  wordBytes s.a ++ wordBytes s.b ++ wordBytes s.c ++ wordBytes s.d ++
  wordBytes s.e ++ wordBytes s.f ++ wordBytes s.g ++ wordBytes s.h

/-- SHA-256 of a byte sequence, as its 32 digest bytes. -/
def sha256bytes (msg : List Nat) : List Nat :=
  digestBytes ((toChunks (padMsg msg)).foldl compress shaInit)

/-- Lowercase hexadecimal digit character (only ever applied to `n < 16`). -/
def hexChar (n : Nat) : Char :=
  match n with
  | 0 => '0' | 1 => '1' | 2 => '2' | 3 => '3' | 4 => '4'
  | 5 => '5' | 6 => '6' | 7 => '7' | 8 => '8' | 9 => '9'
  | 10 => 'a' | 11 => 'b' | 12 => 'c' | 13 => 'd' | 14 => 'e' | 15 => 'f'
  | _ => '0'

/-- Whether a character is a lowercase hexadecimal digit. -/
def isLowerHexChar (c : Char) : Bool :=
  (decide ('0' ≤ c) && decide (c ≤ '9')) || (decide ('a' ≤ c) && decide (c ≤ 'f'))

/-- Lowercase hex rendering of a byte sequence, modelling `hexdigest()`. -/
def bytesToHexChars (bs : List Nat) : List Char :=
  bs.flatMap fun b => [hexChar (b / 16), hexChar (b % 16)]

/-- UTF-8 encoding of one Unicode scalar value (what Python's `str.encode()`
does to each character). -/
def utf8EncodeChar (c : Char) : List Nat :=
  let n := c.toNat
  if n < 0x80 then [n]
  else if n < 0x800 then
    [0xC0 ||| (n >>> 6), 0x80 ||| (n &&& 0x3F)]
  else if n < 0x10000 then
    [0xE0 ||| (n >>> 12), 0x80 ||| ((n >>> 6) &&& 0x3F), 0x80 ||| (n &&& 0x3F)]
  else
    [0xF0 ||| (n >>> 18), 0x80 ||| ((n >>> 12) &&& 0x3F),
     0x80 ||| ((n >>> 6) &&& 0x3F), 0x80 ||| (n &&& 0x3F)]

/-- UTF-8 encoding of a character sequence. -/
def utf8Encode (cs : List Char) : List Nat := cs.flatMap utf8EncodeChar

/-- Embedding of `hashlib.sha256(s.encode()).hexdigest()[:8]`: the first 8
characters of the lowercase-hex SHA-256 digest of the UTF-8 bytes of `s`. -/
def commitHashHex (s : String) : String :=
  String.mk ((bytesToHexChars (sha256bytes (utf8Encode s.data))).take 8)

/-- The hash `Repository.add_commit` assigns (`models.py` lines 120-123):
`hash_input = f"{commit.timestamp.isoformat()}{commit.message}"`. -/
def assignedHash (c : Commit) : String :=
  commitHashHex (isoformat c.timestamp ++ c.message)

/-- Modelled from the spec's wording of AddCommit: "the first 8 hexadecimal
characters of the SHA-256 digest of the concatenation of `c.timestamp`
(ISO-8601 text) and `c.message` (UTF-8 bytes, no separator)".  Stated
separately from `assignedHash` (which is translated from the code) so the two
can be compared. -/
def specAssignedHash (c : Commit) : String :=
  String.mk ((bytesToHexChars (sha256bytes
    (utf8Encode (String.data (isoformat c.timestamp ++ c.message))))).take 8)

/-! ### JSON values and the configuration document -/

/-- A JSON-like Python value, as produced by `json.loads`: the cases the
configuration document can hold. -/
inductive JValue where
  | str (s : String)
  | obj (m : List (String × JValue))
  | arr (l : List JValue)
  | num (n : Int)
  | bool (b : Bool)
  | null

/-- Lookup in an association list modelling a Python `dict` (first — and in a
JSON-parsed dict, only — binding wins). -/
def alook : List (String × JValue) → String → Option JValue
  | [], _ => none
  | (k, v) :: rest, key => if k = key then some v else alook rest key

/-- Python `dict` item assignment `m[key] = v`: replace in place if the key
is present, otherwise append at the end (insertion order is preserved). -/
def setKey : List (String × JValue) → String → JValue → List (String × JValue)
  | [], key, v => [(key, v)]
  | (k, w) :: rest, key, v =>
    if k = key then (k, v) :: rest else (k, w) :: setKey rest key v

/-- Python `m.get(key, dflt)` on a dict. -/
def lookupD (m : List (String × JValue)) (key : String) (dflt : JValue) : JValue :=
  match alook m key with
  | some v => v
  | none => dflt

/-- Follow a dotted path of keys through nested mappings; `none` when a
segment is missing or a non-mapping is reached before the path ends. -/
def getPath : JValue → List String → Option JValue
  | j, [] => some j
  | .obj m, k :: rest =>
    match alook m k with
    | some v => getPath v rest
    | none => none
  | _, _ :: _ => none

/-- Embedding of the loop in `Repository.set_config` (`models.py` lines
136-143): walk all segments but the last, creating a missing segment as an
empty dict, then assign the final segment.  `none` models the `TypeError`
Python raises when a traversed value (or the final container) is not a dict. -/
def setPath : JValue → List String → String → Option JValue
  | _, [], _ => none
  | .obj m, [k], v => some (.obj (setKey m k (.str v)))
  | .obj m, k :: k2 :: rest, v =>
    match alook m k with
    | some w =>
      match setPath w (k2 :: rest) v with
      | some w2 => some (.obj (setKey m k w2))
      | none => none
    | none =>
      match setPath (.obj []) (k2 :: rest) v with
      | some w2 => some (.obj (setKey (m ++ [(k, .obj [])]) k w2))
      | none => none
  | _, _ :: _, _ => none

/-- The precondition under which `set_config`'s walk raises no `TypeError`:
every key segment it traverses lands on a dict (a missing segment is fine —
it is created as an empty dict). -/
def setOk : JValue → List String → Bool
  | _, [] => false
  | .obj _, [_] => true
  | .obj m, k :: k2 :: rest =>
    match alook m k with
    | some w => setOk w (k2 :: rest)
    | none => setOk (.obj []) (k2 :: rest)
  | _, _ :: _ => false

/-- Python truthiness of a JSON value (`if not remote_url:`). -/
def jTruthy : JValue → Bool
  | .str s => !(s = "")
  | .obj m => !m.isEmpty
  | .arr l => !l.isEmpty
  | .num n => !(n = 0)
  | .bool b => b
  | .null => false

/-- The default configuration written by `Repository.init` (`models.py`
lines 77-85). -/
def defaultConfig : JValue :=
  .obj [("user", .obj [("name", .str ""), ("email", .str "")]),
        ("remote", .obj [("url", .str "")])]

/-! ### The repository state and its operations -/

/-- The on-disk state a `Repository` instance manages: whether the `.gyt`
directory exists, and the three documents (`none` = file absent; a present
staging/commits file is an array of records, a present config file is a JSON
value). -/
structure Repository where
  gytDirExists : Bool
  stagingDoc : Option (List MilestoneDict)
  commitsDoc : Option (List CommitDict)
  configDoc : Option JValue

/-- Embedding of `Repository.init` (`models.py` lines 69-86): returns the
Python return value together with the new on-disk state. -/
def Repository.init (st : Repository) : Bool × Repository :=
  if st.gytDirExists then (false, st)
  else (true, ⟨true, some [], some [], some defaultConfig⟩)

/-- Embedding of `Repository.is_initialized`. -/
def Repository.is_initialized (st : Repository) : Bool := st.gytDirExists

/-- Embedding of `Repository.get_staged_milestones`: an absent file is an
empty list, a present file is deserialized (`none` models a raised
deserialization error). -/
def Repository.get_staged_milestones (st : Repository) : Option (List Milestone) :=
  match st.stagingDoc with
  | none => some []
  | some ds => milestonesFromDicts ds

/-- Embedding of `Repository.add_milestone`: read-modify-write of the staging
document. -/
def Repository.add_milestone (st : Repository) (m : Milestone) : Option Repository :=
  match st.get_staged_milestones with
  | none => none
  | some staged =>
    some { st with stagingDoc := some ((staged ++ [m]).map Milestone.to_dict) }

/-- Embedding of `Repository.clear_staging`. -/
def Repository.clear_staging (st : Repository) : Repository :=
  { st with stagingDoc := some [] }

/-- Embedding of `Repository.get_commits`. -/
def Repository.get_commits (st : Repository) : Option (List Commit) :=
  match st.commitsDoc with
  | none => some []
  | some ds => commitsFromDicts ds

/-- Embedding of `Repository.add_commit` (`models.py` lines 116-126): read
the history, assign the commit its hash, append it, rewrite the document. -/
def Repository.add_commit (st : Repository) (c : Commit) : Option Repository :=
  match st.get_commits with
  | none => none
  | some commits =>
    let c2 := { c with commit_hash := some (assignedHash c) }
    some { st with commitsDoc := some ((commits ++ [c2]).map Commit.to_dict) }

/-- Embedding of `Repository.get_config`: `{}` when the file is absent. -/
def Repository.get_config (st : Repository) : JValue :=
  match st.configDoc with
  | none => .obj []
  | some j => j

/-- Embedding of Python's `key.split(".")` on the character level: split at
every `'.'`, keeping empty groups (so the result always has at least one
element). -/
def splitDots : List Char → List (List Char)
  | [] => [[]]
  | c :: rest =>
    match splitDots rest with
    | [] => [[]]
    | g :: gs => if c = '.' then [] :: g :: gs else (c :: g) :: gs

/-- Embedding of Python's `key.split(".")` on strings. -/
def pySplitDot (s : String) : List String := (splitDots s.data).map String.mk

/-- Embedding of `Repository.set_config` (`models.py` lines 134-144); `none`
models the `TypeError` raised when the dotted-key walk hits a non-dict. -/
def Repository.set_config (st : Repository) (key value : String) : Option Repository :=
  match setPath st.get_config (pySplitDot key) value with
  | some j => some { st with configDoc := some j }
  | none => none

/-- A sequence of `add_milestone` calls, aborting at the first raised
error. -/
def addAll (st : Repository) : List Milestone → Option Repository
  | [] => some st
  | m :: ms =>
    match st.add_milestone m with
    | none => none
    | some st2 => addAll st2 ms

/-- The `commit_hash` field of the last record in the commits document. -/
def lastStoredHash (st : Repository) : Option String :=
  match st.commitsDoc with
  | none => none
  | some ds =>
    match ds.getLast? with
    | none => none
    | some d => d.commit_hash

/-! ### The command layer (`cli.py`) -/

/-- How a CLI command terminates: normal return, an explicit
`typer.Exit(code)`, or an unhandled Python exception.  CPython terminates the
process with exit code 1 when an exception propagates out of `main`. -/
inductive Outcome where
  | ok
  | exited (code : Nat)
  | pyError
  deriving DecidableEq

/-- The process exit code each outcome produces (an unhandled exception makes
the interpreter exit with code 1). -/
def processExitCode : Outcome → Nat
  | .ok => 0
  | .exited code => code
  | .pyError => 1

/-- Embedding of the `commit` command (`cli.py` lines 62-79).  `now` is the
value `datetime.now()` supplies for the new commit's default timestamp. -/
def cliCommit (now : Datetime) (message : String) (st : Repository) :
    Outcome × Repository :=
  if st.is_initialized = false then (.exited 1, st)
  else
    match st.get_staged_milestones with
    | none => (.pyError, st)
    | some [] => (.exited 1, st)
    | some (m :: ms) =>
      let c : Commit := ⟨message, m :: ms, now, none⟩
      match st.add_commit c with
      | none => (.pyError, st)
      | some st2 => (.ok, st2.clear_staging)

/-- Console output of the `push` command, by message kind; `networkCall` is
the request the commented-out placeholder would make and is never emitted. -/
inductive PushEvent where
  | notRepoMsg
  | noRemoteMsg
  | noCommitsMsg
  | pushingMsg (url : JValue) (count : Nat)
  | noteMsg
  | networkCall (url : JValue)

/-- Whether an event is the "Pushing ... commit(s) to ..." message. -/
def PushEvent.isPushing : PushEvent → Bool
  | .pushingMsg _ _ => true
  | _ => false

/-- Whether an event is a network request. -/
def PushEvent.isNetwork : PushEvent → Bool
  | .networkCall _ => true
  | _ => false

/-- Embedding of `config.get("remote", {}).get("url", "")` from the `push`
command; `none` models the `AttributeError` raised by `.get` on a
non-dict. -/
def configRemoteUrl (config : JValue) : Option JValue :=
  match config with
  | .obj m =>
    match lookupD m "remote" (.obj []) with
    | .obj m2 => some (lookupD m2 "url" (.str ""))
    | _ => none
  | _ => none

/-- Embedding of `remote or config.get("remote", {}).get("url", "")`:
Python's `or` short-circuits, so the config is only consulted when the flag
is absent or the empty string. -/
def resolveRemote (flag : Option String) (config : JValue) : Option JValue :=
  match flag with
  | some s => if s = "" then configRemoteUrl config else some (.str s)
  | none => configRemoteUrl config

/-- Embedding of the `push` command (`cli.py` lines 181-203): resolve the
remote URL from the flag or `remote.url`, fail when it is falsy, otherwise
print intent only (the network request exists only in commented-out code). -/
def cliPush (remoteFlag : Option String) (st : Repository) :
    Outcome × List PushEvent :=
  if st.is_initialized = false then (.exited 1, [.notRepoMsg])
  else
    match resolveRemote remoteFlag st.get_config with
    | none => (.pyError, [])
    | some ru =>
      if jTruthy ru = false then (.exited 1, [.noRemoteMsg])
      else
        match st.get_commits with
        | none => (.pyError, [])
        | some [] => (.ok, [.noCommitsMsg])
        | some cs => (.ok, [.pushingMsg ru cs.length, .noteMsg])

/-! ### Digit and datetime-roundtrip lemmas -/

theorem digitVal_digitChar (d : Nat) (h : d < 10) :
    digitVal (digitChar d) = d := by
  interval_cases d <;> decide

theorem isDigitChar_digitChar (d : Nat) (h : d < 10) :
    isDigitChar (digitChar d) = true := by
  interval_cases d <;> decide

theorem parse2 (n : Nat) (h : n ≤ 99) :
    digitVal (digitChar (n / 10)) * 10 + digitVal (digitChar (n % 10)) = n := by
  rw [digitVal_digitChar _ (by omega), digitVal_digitChar _ (by omega)]
  omega

theorem parse4 (n : Nat) (h : n ≤ 9999) :
    digitVal (digitChar (n / 1000)) * 1000 + digitVal (digitChar (n / 100 % 10)) * 100 +
      digitVal (digitChar (n / 10 % 10)) * 10 + digitVal (digitChar (n % 10)) = n := by
  rw [digitVal_digitChar _ (by omega), digitVal_digitChar _ (by omega),
    digitVal_digitChar _ (by omega), digitVal_digitChar _ (by omega)]
  omega

theorem parse6 (n : Nat) (h : n ≤ 999999) :
    digitVal (digitChar (n / 100000)) * 100000 + digitVal (digitChar (n / 10000 % 10)) * 10000 +
      digitVal (digitChar (n / 1000 % 10)) * 1000 + digitVal (digitChar (n / 100 % 10)) * 100 +
      digitVal (digitChar (n / 10 % 10)) * 10 + digitVal (digitChar (n % 10)) = n := by
  rw [digitVal_digitChar _ (by omega), digitVal_digitChar _ (by omega),
    digitVal_digitChar _ (by omega), digitVal_digitChar _ (by omega),
    digitVal_digitChar _ (by omega), digitVal_digitChar _ (by omega)]
  omega

theorem parseIso_isoChars (dt : Datetime) (hv : dt.Valid) :
    parseIso (isoChars dt) = some dt := by
  obtain ⟨h1, h2, h3, h4, h5, h6, h7, h8, h9, h10⟩ := hv
  obtain ⟨y, mo, d, hh, mi, s, u⟩ := dt
  simp only at h1 h2 h3 h4 h5 h6 h7 h8 h9 h10
  by_cases hu : u = 0
  · subst hu
    simp only [isoChars, pad4, pad2, if_pos, List.cons_append, List.nil_append,
      List.append_nil, if_true, reduceIte]
    simp only [parseIso]
    rw [if_pos]
    · simp only [Option.some.injEq, Datetime.mk.injEq]
      exact ⟨parse4 y (by omega), parse2 mo (by omega), parse2 d (by omega),
        parse2 hh (by omega), parse2 mi (by omega), parse2 s (by omega), trivial⟩
    · simp only [Bool.and_eq_true]
      repeat' apply And.intro
      all_goals exact isDigitChar_digitChar _ (by omega)
  · simp only [isoChars, pad4, pad2, pad6, if_neg hu, List.cons_append,
      List.nil_append, List.append_nil]
    simp only [parseIso]
    rw [if_pos]
    · simp only [Option.some.injEq, Datetime.mk.injEq]
      exact ⟨parse4 y (by omega), parse2 mo (by omega), parse2 d (by omega),
        parse2 hh (by omega), parse2 mi (by omega), parse2 s (by omega),
        parse6 u (by omega)⟩
    · simp only [Bool.and_eq_true]
      repeat' apply And.intro
      all_goals exact isDigitChar_digitChar _ (by omega)

theorem fromisoformat_isoformat (dt : Datetime) (hv : dt.Valid) :
    fromisoformat (isoformat dt) = some dt := by
  simpa only [fromisoformat, isoformat] using parseIso_isoChars dt hv

/-! ### Serialization roundtrip lemmas -/

theorem milestone_from_to_dict (m : Milestone) (hv : m.Valid) :
    Milestone.from_dict m.to_dict = some m := by
  obtain ⟨msg, ts, tags⟩ := m
  simp only [Milestone.to_dict, Milestone.from_dict,
    fromisoformat_isoformat ts hv]

theorem milestonesFromDicts_map (ms : List Milestone)
    (hv : ∀ m ∈ ms, m.Valid) :
    milestonesFromDicts (ms.map Milestone.to_dict) = some ms := by
  induction ms with
  | nil => rfl
  | cons m rest ih =>
    simp only [List.map_cons, milestonesFromDicts,
      milestone_from_to_dict m (hv m (List.mem_cons_self m rest)),
      ih fun x hx => hv x (List.mem_cons_of_mem m hx)]

theorem commit_from_to_dict (c : Commit) (hv : c.Valid) :
    Commit.from_dict c.to_dict = some c := by
  obtain ⟨hts, hms⟩ := hv
  obtain ⟨msg, ms, ts, ch⟩ := c
  simp only at hts hms
  simp only [Commit.to_dict, Commit.from_dict, fromisoformat_isoformat ts hts,
    milestonesFromDicts_map ms hms]

theorem commitsFromDicts_map (cs : List Commit)
    (hv : ∀ c ∈ cs, c.Valid) :
    commitsFromDicts (cs.map Commit.to_dict) = some cs := by
  induction cs with
  | nil => rfl
  | cons c rest ih =>
    simp only [List.map_cons, commitsFromDicts,
      commit_from_to_dict c (hv c (List.mem_cons_self c rest)),
      ih fun x hx => hv x (List.mem_cons_of_mem c hx)]

/-! ### Shape of the hexadecimal digest -/

theorem length_bytesToHexChars (bs : List Nat) :
    (bytesToHexChars bs).length = 2 * bs.length := by
  induction bs with
  | nil => rfl
  | cons b rest ih =>
    simp only [bytesToHexChars, List.flatMap_cons] at ih ⊢
    simp [ih]
    omega

theorem length_sha256bytes (msg : List Nat) :
    (sha256bytes msg).length = 32 := by
  simp [sha256bytes, digestBytes, wordBytes]

theorem mem_wordBytes_lt (w : Nat) : ∀ b ∈ wordBytes w, b < 256 := by
  intro b hb
  simp only [wordBytes, List.mem_cons, List.not_mem_nil, or_false] at hb
  rcases hb with h | h | h | h <;> subst h <;> exact Nat.mod_lt _ (by norm_num)

theorem mem_sha256bytes_lt (msg : List Nat) :
    ∀ b ∈ sha256bytes msg, b < 256 := by
  intro b hb
  simp only [sha256bytes, digestBytes, List.mem_append, or_assoc] at hb
  rcases hb with h | h | h | h | h | h | h | h <;> exact mem_wordBytes_lt _ _ h

theorem isLowerHexChar_hexChar (n : Nat) (h : n < 16) :
    isLowerHexChar (hexChar n) = true := by
  interval_cases n <;> decide

theorem mem_bytesToHexChars (bs : List Nat) (hb : ∀ b ∈ bs, b < 256) :
    ∀ c ∈ bytesToHexChars bs, isLowerHexChar c = true := by
  intro c hc
  simp only [bytesToHexChars, List.mem_flatMap, List.mem_cons,
    List.not_mem_nil, or_false] at hc
  obtain ⟨b, hbmem, hc | hc⟩ := hc <;> subst hc
  · exact isLowerHexChar_hexChar _ (by have := hb b hbmem; omega)
  · exact isLowerHexChar_hexChar _ (Nat.mod_lt _ (by norm_num))

/-! ### String-level helper facts -/

theorem data_mk (l : List Char) : (String.mk l).data = l := rfl

theorem data_append (a b : String) : (a ++ b).data = a.data ++ b.data := rfl

theorem length_data (s : String) : s.length = s.data.length := rfl

/-! ### Configuration lemmas -/

theorem alook_setKey_self (m : List (String × JValue)) (k : String) (v : JValue) :
    alook (setKey m k v) k = some v := by
  induction m with
  | nil => simp [setKey, alook]
  | cons p rest ih =>
    obtain ⟨k1, v1⟩ := p
    by_cases hk : k1 = k
    · subst hk; simp [setKey, alook]
    · simp [setKey, alook, hk, ih]

theorem setPath_getPath (keys : List String) :
    ∀ (j : JValue) (v : String), setOk j keys = true →
      ∃ j2, setPath j keys v = some j2 ∧ getPath j2 keys = some (.str v) := by
  induction keys with
  | nil => intro j v h; cases j <;> simp [setOk] at h
  | cons k rest ih =>
    intro j v h
    cases rest with
    | nil =>
      cases j with
      | obj m =>
        refine ⟨.obj (setKey m k (.str v)), rfl, ?_⟩
        simp [getPath, alook_setKey_self]
      | str s => simp [setOk] at h
      | arr l => simp [setOk] at h
      | num n => simp [setOk] at h
      | bool b => simp [setOk] at h
      | null => simp [setOk] at h
    | cons k2 rest2 =>
      cases j with
      | obj m =>
        cases halook : alook m k with
        | some w =>
          have hok : setOk w (k2 :: rest2) = true := by
            simpa only [setOk, halook] using h
          obtain ⟨w2, hset, hget⟩ := ih w v hok
          refine ⟨.obj (setKey m k w2), ?_, ?_⟩
          · simp only [setPath, halook, hset]
          · simp only [getPath, alook_setKey_self]
            exact hget
        | none =>
          have hok : setOk (.obj []) (k2 :: rest2) = true := by
            simpa only [setOk, halook] using h
          obtain ⟨w2, hset, hget⟩ := ih (.obj []) v hok
          refine ⟨.obj (setKey (m ++ [(k, .obj [])]) k w2), ?_, ?_⟩
          · simp only [setPath, halook, hset]
          · simp only [getPath, alook_setKey_self]
            exact hget
      | str s => simp [setOk] at h
      | arr l => simp [setOk] at h
      | num n => simp [setOk] at h
      | bool b => simp [setOk] at h
      | null => simp [setOk] at h

/-! ### Staging and history lemmas -/

theorem addAll_spec (ms : List Milestone) :
    ∀ (st : Repository) (acc : List Milestone),
      st.get_staged_milestones = some acc →
      (∀ m ∈ acc, m.Valid) → (∀ m ∈ ms, m.Valid) →
      ∃ st2, addAll st ms = some st2 ∧
        st2.get_staged_milestones = some (acc ++ ms) := by
  induction ms with
  | nil =>
    intro st acc h hva hvm
    exact ⟨st, rfl, by simpa using h⟩
  | cons m rest ih =>
    intro st acc h hva hvm
    have hvm1 : m.Valid := hvm m (List.mem_cons_self m rest)
    have hacc2 : ∀ x ∈ acc ++ [m], x.Valid := by
      intro x hx
      rcases List.mem_append.mp hx with hx | hx
      · exact hva x hx
      · rw [List.mem_singleton.mp hx]; exact hvm1
    have hget : (Repository.mk st.gytDirExists
        (some ((acc ++ [m]).map Milestone.to_dict)) st.commitsDoc
        st.configDoc).get_staged_milestones = some (acc ++ [m]) := by
      simp only [Repository.get_staged_milestones]
      exact milestonesFromDicts_map _ hacc2
    obtain ⟨st2, hrec, hgot⟩ := ih _ (acc ++ [m]) hget hacc2
      fun x hx => hvm x (List.mem_cons_of_mem m hx)
    refine ⟨st2, ?_, ?_⟩
    · rw [addAll, Repository.add_milestone, h]
      exact hrec
    · rw [hgot, List.append_assoc, List.singleton_append]

theorem lastStoredHash_add_commit (st st2 : Repository) (c : Commit)
    (h : st.add_commit c = some st2) :
    lastStoredHash st2 = some (assignedHash c) := by
  unfold Repository.add_commit at h
  cases hg : st.get_commits with
  | none => rw [hg] at h; cases h
  | some commits =>
    rw [hg] at h
    simp only [Option.some.injEq] at h
    subst h
    simp only [lastStoredHash, List.map_append, List.map_cons, List.map_nil,
      List.getLast?_append_cons, List.getLast?_singleton]
    rfl

/-! ### The claims -/

/-- C1: for every commit `c` passed to `add_commit`, the hash assigned to it
(and stored with it at the end of the commits document) is exactly the first
8 hexadecimal characters of the SHA-256 digest of the UTF-8 bytes of the
ISO-8601 text of `c.timestamp` concatenated with `c.message` with no
separator, and this hash is always a non-empty 8-character lowercase-hex
string. -/
theorem C1_add_commit_assigns_spec_hash (st : Repository) (c : Commit)
    (commits : List Commit) (h : st.get_commits = some commits) :
    st.add_commit c =
      some { st with
             commitsDoc := some
               ((commits ++ [{ c with
                               commit_hash := some (specAssignedHash c) }]).map
                 Commit.to_dict) } ∧
    specAssignedHash c = assignedHash c ∧
    (specAssignedHash c).length = 8 ∧
    (specAssignedHash c).data ≠ [] ∧
    ∀ ch ∈ (specAssignedHash c).data, isLowerHexChar ch = true := by
  have h64 : (bytesToHexChars (sha256bytes (utf8Encode
      (String.data (isoformat c.timestamp ++ c.message))))).length = 64 := by
    rw [length_bytesToHexChars, length_sha256bytes]
  have hlen : (specAssignedHash c).length = 8 := by
    rw [specAssignedHash, length_data, data_mk, List.length_take, h64]
    omega
  refine ⟨?_, rfl, hlen, ?_, ?_⟩
  · simp only [Repository.add_commit, h]
    rfl
  · intro hnil
    rw [length_data, hnil] at hlen
    cases hlen
  · intro ch hch
    rw [specAssignedHash, data_mk] at hch
    exact mem_bytesToHexChars _ (mem_sha256bytes_lt _) ch (List.take_subset _ _ hch)

/-- Witness for C1: the hypothesis holds and the hash facts follow at a
concrete freshly-initialized repository and commit. -/
theorem C1_witness :
    (Repository.mk true (some []) (some []) (some defaultConfig)).get_commits =
        some [] ∧
    (specAssignedHash
        (Commit.mk "day 1" [] (Datetime.mk 2024 1 1 9 30 0 0) none)).length = 8 ∧
    specAssignedHash (Commit.mk "day 1" [] (Datetime.mk 2024 1 1 9 30 0 0) none) =
      assignedHash (Commit.mk "day 1" [] (Datetime.mk 2024 1 1 9 30 0 0) none) :=
  ⟨rfl,
   (C1_add_commit_assigns_spec_hash
     (Repository.mk true (some []) (some []) (some defaultConfig))
     (Commit.mk "day 1" [] (Datetime.mk 2024 1 1 9 30 0 0) none) [] rfl).2.2.1,
   (C1_add_commit_assigns_spec_hash
     (Repository.mk true (some []) (some []) (some defaultConfig))
     (Commit.mk "day 1" [] (Datetime.mk 2024 1 1 9 30 0 0) none) [] rfl).2.1⟩

/-- C3 is false as stated: the hash input concatenates the ISO timestamp and
the message with no separator, so the distinct pairs
`(2024-01-01 00:00:00, ".500000x")` and `(2024-01-01 00:00:00.500000, "x")`
produce the same hash input and `add_commit` assigns them the same hash. -/
theorem C3_counterexample :
    ((Datetime.mk 2024 1 1 0 0 0 0, (".500000x" : String)) ≠
      (Datetime.mk 2024 1 1 0 0 0 500000, ("x" : String))) ∧
    ((Repository.mk true (some []) (some []) (some defaultConfig)).add_commit
        (Commit.mk ".500000x" [] (Datetime.mk 2024 1 1 0 0 0 0) none)).map
        lastStoredHash =
      ((Repository.mk true (some []) (some []) (some defaultConfig)).add_commit
        (Commit.mk "x" [] (Datetime.mk 2024 1 1 0 0 0 500000) none)).map
        lastStoredHash := by
  refine ⟨by decide, ?_⟩
  have hconcat : isoformat (Datetime.mk 2024 1 1 0 0 0 0) ++ ".500000x" =
      isoformat (Datetime.mk 2024 1 1 0 0 0 500000) ++ "x" := by decide
  have hhash :
      assignedHash (Commit.mk ".500000x" [] (Datetime.mk 2024 1 1 0 0 0 0) none) =
      assignedHash (Commit.mk "x" [] (Datetime.mk 2024 1 1 0 0 0 500000) none) :=
    congrArg commitHashHex hconcat
  calc ((Repository.mk true (some []) (some []) (some defaultConfig)).add_commit
        (Commit.mk ".500000x" [] (Datetime.mk 2024 1 1 0 0 0 0) none)).map
        lastStoredHash
      = some (some (assignedHash
          (Commit.mk ".500000x" [] (Datetime.mk 2024 1 1 0 0 0 0) none))) := rfl
    _ = some (some (assignedHash
          (Commit.mk "x" [] (Datetime.mk 2024 1 1 0 0 0 500000) none))) := by
        rw [hhash]
    _ = ((Repository.mk true (some []) (some []) (some defaultConfig)).add_commit
          (Commit.mk "x" [] (Datetime.mk 2024 1 1 0 0 0 500000) none)).map
          lastStoredHash := rfl

/-- C3 (amended): the hash `add_commit` assigns is a function of the single
concatenated string `isoformat(timestamp) ++ message`; whenever two commits'
concatenations coincide — which can happen for different
`(timestamp, message)` pairs, since no separator is used — they receive
identical hashes, so distinct pairs are not guaranteed distinct hashes. -/
theorem C3_amended_hash_function_of_concatenation
    (st1 st2 r1 r2 : Repository) (c1 c2 : Commit)
    (h1 : st1.add_commit c1 = some r1) (h2 : st2.add_commit c2 = some r2)
    (hcat : isoformat c1.timestamp ++ c1.message =
      isoformat c2.timestamp ++ c2.message) :
    lastStoredHash r1 = lastStoredHash r2 := by
  rw [lastStoredHash_add_commit _ _ _ h1, lastStoredHash_add_commit _ _ _ h2]
  exact congrArg (fun s => some (commitHashHex s)) hcat

/-- Witness for the amended C3 at the concrete colliding pair. -/
theorem C3_amended_witness :
    lastStoredHash (Repository.mk true (some [])
      (some (([] ++ [Commit.mk ".500000x" [] (Datetime.mk 2024 1 1 0 0 0 0)
        (some (assignedHash (Commit.mk ".500000x" []
          (Datetime.mk 2024 1 1 0 0 0 0) none)))]).map Commit.to_dict))
      (some defaultConfig)) =
    lastStoredHash (Repository.mk true (some [])
      (some (([] ++ [Commit.mk "x" [] (Datetime.mk 2024 1 1 0 0 0 500000)
        (some (assignedHash (Commit.mk "x" []
          (Datetime.mk 2024 1 1 0 0 0 500000) none)))]).map Commit.to_dict))
      (some defaultConfig)) :=
  C3_amended_hash_function_of_concatenation
    (Repository.mk true (some []) (some []) (some defaultConfig))
    (Repository.mk true (some []) (some []) (some defaultConfig)) _ _
    (Commit.mk ".500000x" [] (Datetime.mk 2024 1 1 0 0 0 0) none)
    (Commit.mk "x" [] (Datetime.mk 2024 1 1 0 0 0 500000) none)
    rfl rfl (by decide)

/-- C10: the assigned commit hash does not depend on the commit's milestones:
any two commits with equal timestamp and equal message — whatever their
milestone lists and whatever repositories they are committed to — are stored
with the same `commit_hash`. -/
theorem C10_hash_ignores_milestones (st1 st2 r1 r2 : Repository) (c1 c2 : Commit)
    (h1 : st1.add_commit c1 = some r1) (h2 : st2.add_commit c2 = some r2)
    (ht : c1.timestamp = c2.timestamp) (hm : c1.message = c2.message) :
    lastStoredHash r1 = lastStoredHash r2 ∧
    lastStoredHash r1 = some (assignedHash c1) := by
  refine ⟨?_, lastStoredHash_add_commit _ _ _ h1⟩
  rw [lastStoredHash_add_commit _ _ _ h1, lastStoredHash_add_commit _ _ _ h2]
  unfold assignedHash
  rw [ht, hm]

/-- Witness for C10: same timestamp and message, milestone lists `[]` and a
one-element list. -/
theorem C10_witness :
    lastStoredHash (Repository.mk true (some [])
      (some (([] ++ [Commit.mk "day 1" [] (Datetime.mk 2024 1 1 9 30 0 0)
        (some (assignedHash (Commit.mk "day 1" []
          (Datetime.mk 2024 1 1 9 30 0 0) none)))]).map Commit.to_dict))
      (some defaultConfig)) =
    lastStoredHash (Repository.mk true (some [])
      (some (([] ++ [Commit.mk "day 1"
        [Milestone.mk "wrote docs" (Datetime.mk 2024 1 1 9 0 0 0) []]
        (Datetime.mk 2024 1 1 9 30 0 0)
        (some (assignedHash (Commit.mk "day 1"
          [Milestone.mk "wrote docs" (Datetime.mk 2024 1 1 9 0 0 0) []]
          (Datetime.mk 2024 1 1 9 30 0 0) none)))]).map Commit.to_dict))
      (some defaultConfig)) ∧
    lastStoredHash (Repository.mk true (some [])
      (some (([] ++ [Commit.mk "day 1" [] (Datetime.mk 2024 1 1 9 30 0 0)
        (some (assignedHash (Commit.mk "day 1" []
          (Datetime.mk 2024 1 1 9 30 0 0) none)))]).map Commit.to_dict))
      (some defaultConfig)) =
      some (assignedHash (Commit.mk "day 1" []
        (Datetime.mk 2024 1 1 9 30 0 0) none)) :=
  C10_hash_ignores_milestones
    (Repository.mk true (some []) (some []) (some defaultConfig))
    (Repository.mk true (some []) (some []) (some defaultConfig)) _ _
    (Commit.mk "day 1" [] (Datetime.mk 2024 1 1 9 30 0 0) none)
    (Commit.mk "day 1"
      [Milestone.mk "wrote docs" (Datetime.mk 2024 1 1 9 0 0 0) []]
      (Datetime.mk 2024 1 1 9 30 0 0) none)
    rfl rfl rfl rfl

/-- C9: serialization roundtrip — `from_dict` inverts `to_dict` for every
milestone and every commit (with nested milestones, and a null or assigned
`commit_hash`) whose timestamps are Python-constructible datetimes. -/
theorem C9_serialization_roundtrip :
    (∀ m : Milestone, m.Valid → Milestone.from_dict m.to_dict = some m) ∧
    (∀ c : Commit, c.Valid → Commit.from_dict c.to_dict = some c) :=
  ⟨milestone_from_to_dict, commit_from_to_dict⟩

/-- Witness for C9 at a concrete milestone and concrete commits with a null
and an assigned hash. -/
theorem C9_witness :
    Milestone.from_dict (Milestone.to_dict
      (Milestone.mk "wrote docs" (Datetime.mk 2024 1 1 9 30 0 500000) ["t"])) =
      some (Milestone.mk "wrote docs" (Datetime.mk 2024 1 1 9 30 0 500000) ["t"]) ∧
    Commit.from_dict (Commit.to_dict
      (Commit.mk "day 1"
        [Milestone.mk "wrote docs" (Datetime.mk 2024 1 1 9 30 0 0) []]
        (Datetime.mk 2024 1 2 0 0 0 0) none)) =
      some (Commit.mk "day 1"
        [Milestone.mk "wrote docs" (Datetime.mk 2024 1 1 9 30 0 0) []]
        (Datetime.mk 2024 1 2 0 0 0 0) none) ∧
    Commit.from_dict (Commit.to_dict
      (Commit.mk "day 1"
        [Milestone.mk "wrote docs" (Datetime.mk 2024 1 1 9 30 0 0) []]
        (Datetime.mk 2024 1 2 0 0 0 0) (some "ab12cd34"))) =
      some (Commit.mk "day 1"
        [Milestone.mk "wrote docs" (Datetime.mk 2024 1 1 9 30 0 0) []]
        (Datetime.mk 2024 1 2 0 0 0 0) (some "ab12cd34")) :=
  ⟨C9_serialization_roundtrip.1 _ (by decide),
   C9_serialization_roundtrip.2 _ (by decide),
   C9_serialization_roundtrip.2 _ (by decide)⟩

/-- C4: `init` on a root whose `.gyt` directory does not exist creates it,
writes an empty staging array, an empty commits array and the default
configuration (whose `user.name`, `user.email` and `remote.url` are all the
empty string), and returns `true`; on a root whose directory exists it
returns `false` and leaves every document unchanged. -/
theorem C4_init (st : Repository) :
    (st.gytDirExists = false →
      st.init = (true, Repository.mk true (some []) (some []) (some defaultConfig))) ∧
    (st.gytDirExists = true → st.init = (false, st)) ∧
    getPath defaultConfig ["user", "name"] = some (.str "") ∧
    getPath defaultConfig ["user", "email"] = some (.str "") ∧
    getPath defaultConfig ["remote", "url"] = some (.str "") := by
  refine ⟨?_, ?_, rfl, rfl, rfl⟩
  · intro h
    simp [Repository.init, h]
  · intro h
    simp [Repository.init, h]

/-- Witness for C4: a fresh root and an already-initialized root. -/
theorem C4_witness :
    (Repository.mk false none none none).init =
      (true, Repository.mk true (some []) (some []) (some defaultConfig)) ∧
    (Repository.mk true (some []) (some []) (some defaultConfig)).init =
      (false, Repository.mk true (some []) (some []) (some defaultConfig)) :=
  ⟨(C4_init (Repository.mk false none none none)).1 rfl,
   (C4_init (Repository.mk true (some []) (some []) (some defaultConfig))).2.1 rfl⟩

/-- C5: on an initialized repository whose staging area is empty, any finite
sequence of `add_milestone` calls succeeds and leaves
`get_staged_milestones` returning exactly the added milestones in call
order. -/
theorem C5_staging_preserves_call_order (st : Repository) (ms : List Milestone)
    (hinit : st.is_initialized = true)
    (hempty : st.get_staged_milestones = some [])
    (hv : ∀ m ∈ ms, m.Valid) :
    st.is_initialized = true ∧
    ∃ st2, addAll st ms = some st2 ∧ st2.get_staged_milestones = some ms := by
  refine ⟨hinit, ?_⟩
  obtain ⟨st2, h1, h2⟩ := addAll_spec ms st [] hempty (by simp) hv
  exact ⟨st2, h1, by simpa using h2⟩

/-- Witness for C5: two milestones staged on a fresh repository come back in
call order. -/
theorem C5_witness :
    (Repository.mk true (some []) (some []) (some defaultConfig)).is_initialized =
      true ∧
    ∃ st2, addAll (Repository.mk true (some []) (some []) (some defaultConfig))
        [Milestone.mk "wrote docs" (Datetime.mk 2024 1 1 9 30 0 0) [],
         Milestone.mk "wrote tests" (Datetime.mk 2024 1 1 10 0 0 500000) ["t"]] =
        some st2 ∧
      st2.get_staged_milestones =
        some [Milestone.mk "wrote docs" (Datetime.mk 2024 1 1 9 30 0 0) [],
              Milestone.mk "wrote tests" (Datetime.mk 2024 1 1 10 0 0 500000) ["t"]] :=
  C5_staging_preserves_call_order _ _ rfl rfl (by decide)

/-- C6: the `commit` command invoked when the staging area is empty exits
with code 1 and changes no document: the repository state afterwards is the
state before. -/
theorem C6_commit_empty_staging (now : Datetime) (msg : String) (st : Repository)
    (hempty : st.get_staged_milestones = some []) :
    cliCommit now msg st = (.exited 1, st) := by
  cases hb : st.is_initialized with
  | false => simp [cliCommit, hb]
  | true => simp [cliCommit, hb, hempty]

/-- Witness for C6 on a freshly initialized repository. -/
theorem C6_witness :
    cliCommit (Datetime.mk 2024 1 2 0 0 0 0) "day 1"
      (Repository.mk true (some []) (some []) (some defaultConfig)) =
      (.exited 1, Repository.mk true (some []) (some []) (some defaultConfig)) :=
  C6_commit_empty_staging (Datetime.mk 2024 1 2 0 0 0 0) "day 1"
    (Repository.mk true (some []) (some []) (some defaultConfig)) rfl

/-- C7: when the staging area is non-empty, the `commit` command (which runs
`add_commit` and then `clear_staging`) succeeds, leaves
`get_staged_milestones` empty, and leaves `get_commits` with exactly one more
entry than before whose milestones are exactly the previously staged
milestones. -/
theorem C7_commit_moves_staged (now : Datetime) (msg : String) (st : Repository)
    (staged : List Milestone) (cs : List Commit)
    (hinit : st.is_initialized = true)
    (hstaged : st.get_staged_milestones = some staged)
    (hne : staged ≠ [])
    (hcs : st.get_commits = some cs)
    (hvs : ∀ m ∈ staged, m.Valid)
    (hvc : ∀ c ∈ cs, c.Valid)
    (hnow : now.Valid) :
    ∃ st2, cliCommit now msg st = (.ok, st2) ∧
      st2.get_staged_milestones = some [] ∧
      ∃ newc, st2.get_commits = some (cs ++ [newc]) ∧
        newc.milestones = staged ∧
        (cs ++ [newc]).length = cs.length + 1 := by
  cases staged with
  | nil => exact absurd rfl hne
  | cons m ms =>
    have hrun : cliCommit now msg st =
        (.ok, Repository.mk st.gytDirExists (some [])
          (some ((cs ++ [{ Commit.mk msg (m :: ms) now none with
            commit_hash := some (assignedHash (Commit.mk msg (m :: ms) now none))
            }]).map Commit.to_dict))
          st.configDoc) := by
      simp only [cliCommit, hinit, hstaged, Repository.add_commit, hcs,
        Repository.clear_staging]
      rfl
    refine ⟨_, hrun, rfl, ?_⟩
    refine ⟨{ Commit.mk msg (m :: ms) now none with
      commit_hash := some (assignedHash (Commit.mk msg (m :: ms) now none)) },
      ?_, rfl, by simp⟩
    show Repository.get_commits _ = _
    simp only [Repository.get_commits]
    apply commitsFromDicts_map
    intro x hx
    rcases List.mem_append.mp hx with hx | hx
    · exact hvc x hx
    · rw [List.mem_singleton.mp hx]
      exact ⟨hnow, fun mm hmm => hvs mm hmm⟩

/-- Witness for C7: one staged milestone on a freshly initialized repository
is moved into a single new commit. -/
theorem C7_witness :
    ∃ st2, cliCommit (Datetime.mk 2024 1 2 0 0 0 0) "day 1"
        (Repository.mk true
          (some [MilestoneDict.mk "wrote docs" "2024-01-01T09:30:00" []])
          (some []) (some defaultConfig)) = (.ok, st2) ∧
      st2.get_staged_milestones = some [] ∧
      ∃ newc, st2.get_commits = some ([] ++ [newc]) ∧
        newc.milestones =
          [Milestone.mk "wrote docs" (Datetime.mk 2024 1 1 9 30 0 0) []] ∧
        ([] ++ [newc]).length = List.length ([] : List Commit) + 1 :=
  C7_commit_moves_staged (Datetime.mk 2024 1 2 0 0 0 0) "day 1"
    (Repository.mk true
      (some [MilestoneDict.mk "wrote docs" "2024-01-01T09:30:00" []])
      (some []) (some defaultConfig))
    [Milestone.mk "wrote docs" (Datetime.mk 2024 1 1 9 30 0 0) []] []
    rfl (by decide) (by decide) rfl (by decide) (by decide) (by decide)

/-- C2 is false as stated: `set_config` does not succeed for every dotted key
on every configuration state.  Setting key `a` to the string `"x"` (reachable
from the default configuration) and then calling `set_config "a.b" "y"` makes
the walk land on a string, and Python raises a `TypeError` (modelled as
`none`) instead of creating a mapping. -/
theorem C2_counterexample :
    (Repository.mk true (some []) (some []) (some defaultConfig)).set_config
        "a" "x" =
      some (Repository.mk true (some []) (some [])
        (some (JValue.obj
          [("user", .obj [("name", .str ""), ("email", .str "")]),
           ("remote", .obj [("url", .str "")]), ("a", .str "x")]))) ∧
    (Repository.mk true (some []) (some [])
      (some (JValue.obj
        [("user", .obj [("name", .str ""), ("email", .str "")]),
         ("remote", .obj [("url", .str "")]), ("a", .str "x")]))).set_config
        "a.b" "y" = none :=
  ⟨rfl, rfl⟩

/-- C2 (amended): `set_config` splits the key on `.`, creates missing
intermediate segments as empty mappings, and succeeds whenever every segment
of the path that already exists holds a mapping; a subsequent `get_config`
then yields the assigned string at the dotted path.  When the walk reaches an
existing non-mapping value, `set_config` raises a `TypeError` instead. -/
theorem C2_amended_set_config (st : Repository) (key value : String)
    (hok : setOk st.get_config (pySplitDot key) = true) :
    ∃ st2, st.set_config key value = some st2 ∧
      getPath st2.get_config (pySplitDot key) = some (.str value) := by
  obtain ⟨j2, hset, hget⟩ := setPath_getPath _ st.get_config value hok
  refine ⟨{ st with configDoc := some j2 }, ?_, ?_⟩
  · simp only [Repository.set_config, hset]
  · exact hget

/-- Witness for the amended C2: a nested key whose intermediate segment
exists as a mapping, and a fresh three-deep key, both on the default
configuration. -/
theorem C2_amended_witness :
    (∃ st2, (Repository.mk true (some []) (some [])
        (some defaultConfig)).set_config "user.name" "alice" = some st2 ∧
      getPath st2.get_config (pySplitDot "user.name") = some (.str "alice")) ∧
    ∃ st3, (Repository.mk true (some []) (some [])
        (some defaultConfig)).set_config "a.b.c" "x" = some st3 ∧
      getPath st3.get_config (pySplitDot "a.b.c") = some (.str "x") :=
  ⟨C2_amended_set_config _ "user.name" "alice" rfl,
   C2_amended_set_config _ "a.b.c" "x" rfl⟩

/-- Every possible console-output list of the `push` command. -/
theorem cliPush_events (flag : Option String) (st : Repository) :
    (cliPush flag st).2 = [.notRepoMsg] ∨ (cliPush flag st).2 = [] ∨
    (cliPush flag st).2 = [.noRemoteMsg] ∨ (cliPush flag st).2 = [.noCommitsMsg] ∨
    ∃ ru n, (cliPush flag st).2 = [.pushingMsg ru n, .noteMsg] := by
  unfold cliPush
  split
  · exact Or.inl rfl
  · split
    · exact Or.inr (Or.inl rfl)
    · split
      · exact Or.inr (Or.inr (Or.inl rfl))
      · split
        · exact Or.inr (Or.inl rfl)
        · exact Or.inr (Or.inr (Or.inr (Or.inl rfl)))
        · exact Or.inr (Or.inr (Or.inr (Or.inr ⟨_, _, rfl⟩)))

/-- The `push` command never performs a network request, whatever the flag
and state (the request exists only in commented-out placeholder code). -/
theorem cliPush_no_network (flag : Option String) (st : Repository) :
    ∀ e ∈ (cliPush flag st).2, e.isNetwork = false := by
  rcases cliPush_events flag st with h | h | h | h | ⟨ru, n, h⟩ <;> rw [h] <;>
    intro e he <;>
    simp only [List.mem_singleton, List.mem_cons, List.not_mem_nil,
      or_false] at he
  · subst he; rfl
  · subst he; rfl
  · subst he; rfl
  · rcases he with rfl | rfl <;> rfl

/-- C8: with no `--remote` flag and no non-empty `remote.url` value in the
configuration, `push` terminates with process exit code 1 (an explicit exit,
or the interpreter's exit code 1 for the unhandled `AttributeError` raised
when `remote` holds a non-mapping) and never prints a "Pushing..." message;
moreover no invocation of `push` ever performs a network call. -/
theorem C8_push_requires_remote (st : Repository)
    (hnourl : ∀ v, getPath st.get_config ["remote", "url"] = some v →
      jTruthy v = false) :
    processExitCode (cliPush none st).1 = 1 ∧
    (∀ e ∈ (cliPush none st).2, e.isPushing = false) ∧
    ∀ (flag : Option String) (st2 : Repository), ∀ e ∈ (cliPush flag st2).2,
      e.isNetwork = false := by
  have hmain : cliPush none st = (.exited 1, [.notRepoMsg]) ∨
      cliPush none st = (.pyError, []) ∨
      cliPush none st = (.exited 1, [.noRemoteMsg]) := by
    cases hb : st.is_initialized with
    | false => exact Or.inl (by simp [cliPush, hb])
    | true =>
      cases hcfg : st.get_config with
      | obj m =>
        cases hrem : alook m "remote" with
        | none =>
          refine Or.inr (Or.inr ?_)
          simp [cliPush, hb, resolveRemote, configRemoteUrl, hcfg, lookupD,
            hrem, alook, jTruthy]
        | some w =>
          cases w with
          | obj m2 =>
            cases hurl : alook m2 "url" with
            | none =>
              refine Or.inr (Or.inr ?_)
              simp [cliPush, hb, resolveRemote, configRemoteUrl, hcfg, lookupD,
                hrem, hurl, jTruthy]
            | some v =>
              have hv : jTruthy v = false := by
                apply hnourl
                simp [getPath, hcfg, hrem, hurl]
              refine Or.inr (Or.inr ?_)
              simp [cliPush, hb, resolveRemote, configRemoteUrl, hcfg, lookupD,
                hrem, hurl, hv]
          | str s2 =>
            exact Or.inr (Or.inl (by
              simp [cliPush, hb, resolveRemote, configRemoteUrl, hcfg, lookupD,
                hrem]))
          | arr l2 =>
            exact Or.inr (Or.inl (by
              simp [cliPush, hb, resolveRemote, configRemoteUrl, hcfg, lookupD,
                hrem]))
          | num n2 =>
            exact Or.inr (Or.inl (by
              simp [cliPush, hb, resolveRemote, configRemoteUrl, hcfg, lookupD,
                hrem]))
          | bool b2 =>
            exact Or.inr (Or.inl (by
              simp [cliPush, hb, resolveRemote, configRemoteUrl, hcfg, lookupD,
                hrem]))
          | null =>
            exact Or.inr (Or.inl (by
              simp [cliPush, hb, resolveRemote, configRemoteUrl, hcfg, lookupD,
                hrem]))
      | str s => exact Or.inr (Or.inl (by
          simp [cliPush, hb, resolveRemote, configRemoteUrl, hcfg]))
      | arr l => exact Or.inr (Or.inl (by
          simp [cliPush, hb, resolveRemote, configRemoteUrl, hcfg]))
      | num n => exact Or.inr (Or.inl (by
          simp [cliPush, hb, resolveRemote, configRemoteUrl, hcfg]))
      | bool b => exact Or.inr (Or.inl (by
          simp [cliPush, hb, resolveRemote, configRemoteUrl, hcfg]))
      | null => exact Or.inr (Or.inl (by
          simp [cliPush, hb, resolveRemote, configRemoteUrl, hcfg]))
  refine ⟨?_, ?_, fun flag st2 => cliPush_no_network flag st2⟩
  · rcases hmain with h | h | h <;> rw [h] <;> rfl
  · rcases hmain with h | h | h <;> rw [h] <;> intro e he <;>
      simp only [List.mem_singleton, List.not_mem_nil] at he
    · subst he; rfl
    · subst he; rfl

/-- Witness for C8 on a freshly initialized repository, whose `remote.url` is
the empty string. -/
theorem C8_witness :
    processExitCode (cliPush none (Repository.mk true (some []) (some [])
      (some defaultConfig))).1 = 1 ∧
    (∀ e ∈ (cliPush none (Repository.mk true (some []) (some [])
      (some defaultConfig))).2, e.isPushing = false) ∧
    ∀ (flag : Option String) (st2 : Repository), ∀ e ∈ (cliPush flag st2).2,
      e.isNetwork = false :=
  C8_push_requires_remote _ (fun v hv => by
    have h2 : some (JValue.str "") = some v := hv
    injection h2 with h3
    cases h3
    rfl)
